import Mathlib

/-!
Verification development for the backup-upload-cleanup pipeline
(main.py, upload.py, mysql.py, postgres.py, mongo.py).

The Python sources are shallowly embedded below.  External collaborators
(the dump tools, the boto3 storage client, the filesystem, the clock and
the network) appear as explicit inputs: a collaborator outcome is a value
of type Option String (none = success, some e = the exception text) or
Bool, and clock/network reads are plain string/record inputs.  Raised
Python exceptions are modelled with Except; a Python value of dynamic
type "None or list" is modelled with Option.
-/

namespace Infra

/-- Network state visible to the host-identity helpers: the outbound
interface IP as observed by the UDP-socket trick of upload.py lines 60-67
(none when the socket raises), and the machine hostname returned by
socket.gethostname (none when it raises).  Either string may be empty. -/
structure NetEnv where
  outboundIp : Option String
  hostname : Option String
deriving DecidableEq, Repr

/-- Snapshot of one local artifact file as the upload and cleanup phases
see it: its full path, its basename (Path.name in the source), whether it
is present on disk, and its stat size. -/
structure FileEntry where
  path : String
  name : String
  onDisk : Bool
  size : Nat
deriving DecidableEq, Repr

/-- Embeds Python str.lower for the ASCII artifact names this program
builds: lower-case each character. -/
def pyLower (s : String) : String :=
  String.mk (s.data.map Char.toLower)

/-- Embeds Python str.startswith: the first argument is a prefix of the
second. -/
def pyStartsWith (p s : String) : Bool :=
  p.data.isPrefixOf s.data

/-- Removes the maximal trailing run of characters satisfying p; the
trailing half of Python str.strip. -/
def dropEndWhile (p : Char → Bool) : List Char → List Char
  | [] => []
  | a :: rest =>
    let r := dropEndWhile p rest
    if r.isEmpty && p a then [] else a :: r

/-- Embeds Python str.strip(chars) on the character list: drop the maximal
leading and trailing runs of characters satisfying p. -/
def stripChars (p : Char → Bool) (l : List Char) : List Char :=
  dropEndWhile p (l.dropWhile p)

/-- String-level wrapper of stripChars. -/
def pyStrip (p : Char → Bool) (s : String) : String :=
  String.mk (stripChars p s.data)

/-- The character set of strip in upload.py line 97 and main.py line 121. -/
def isSlash (c : Char) : Bool := c == '/'

/-- The whitespace set stripped by Python str.strip with no argument. -/
def isPySpace (c : Char) : Bool :=
  c == ' ' || c == '\t' || c == '\n' || c == '\r' || c == '\x0b' || c == '\x0c'

/-- Embeds Python str.split with a one-character separator on a character
list: split at every occurrence, keeping empty pieces, so the result is
never empty. -/
def splitPieces (sep : Char) : List Char → List (List Char)
  | [] => [[]]
  | a :: rest =>
    match splitPieces sep rest with
    | [] => [[]]
    | g :: gs => if a == sep then [] :: g :: gs else (a :: g) :: gs

/-- String-level wrapper of splitPieces. -/
def pySplit (sep : Char) (s : String) : List String :=
  (splitPieces sep s.data).map String.mk

namespace Upload

/-- Embeds the helper _server_id of upload.py lines 57-76: prefer the
outbound-interface IP when the socket trick succeeds and yields a truthy
string, else the hostname when gethostname succeeds and yields a truthy
string, else the literal unknown-host. -/
def _server_id (net : NetEnv) : String :=
  match net.outboundIp with
  | some ip =>
    if ip ≠ "" then ip
    else match net.hostname with
      | some h => if h ≠ "" then h else "unknown-host"
      | none => "unknown-host"
  | none =>
    match net.hostname with
    | some h => if h ≠ "" then h else "unknown-host"
    | none => "unknown-host"

/-- Embeds the filename classification of upload.py lines 86-95: the db
type is inferred from the lower-cased basename by its leading token. -/
def dbTypeOf (name : String) : String :=
  let nameLower := pyLower name
  if pyStartsWith "mysql_" nameLower then "mysql"
  else if pyStartsWith "postgres_" nameLower then "postgres"
  else if pyStartsWith "mongo_" nameLower then "mongo"
  else "unknown"

/-- Embeds upload.py line 97: the optional key prefix, stripped of leading
and trailing slashes and given a trailing slash when truthy, empty
otherwise.  The Python None default behaves as the empty string here. -/
def basePre (pre : String) : String :=
  if pre ≠ "" then pyStrip isSlash pre ++ "/" else ""

/-- Embeds the key construction of upload.py line 98. -/
def mkKey (pre server dbType date name : String) : String :=
  basePre pre ++ server ++ "/" ++ dbType ++ "/" ++ date ++ "/" ++ name

/-- One observable per-file action of the upload loop: the skip of line 83
for a file missing on disk, or the upload attempt of lines 100-101 with
the key it used. -/
inductive UEvent where
  | skip (name : String)
  | tryPut (name : String) (key : String)
deriving DecidableEq, Repr

/-- Embeds the per-file loop of upload.py lines 80-103.  The first
component records the per-file actions; the second is the Python return
value: on success the function falls off the end and returns None
(line 8 annotates -> None), modelled as Except.ok none; a put failure
raises RuntimeError (lines 102-103), modelled as Except.error carrying the
message of line 103, which aborts the remaining files.  putRes gives the
storage collaborator outcome per file name. -/
def uploadLoop (bucket pre server date : String) (putRes : String → Option String) :
    List FileEntry → List UEvent × Except String (Option (List FileEntry))
  | [] => ([], Except.ok none)
  | f :: rest =>
    if f.onDisk then
      let key := mkKey pre server (dbTypeOf f.name) date f.name
      match putRes f.name with
      | some e =>
        ([UEvent.tryPut f.name key],
         Except.error ("Failed to upload " ++ f.path ++ " to s3://" ++ bucket ++ "/"
           ++ key ++ ": " ++ e))
      | none =>
        let r := uploadLoop bucket pre server date putRes rest
        (UEvent.tryPut f.name key :: r.1, r.2)
    else
      let r := uploadLoop bucket pre server date putRes rest
      (UEvent.skip f.name :: r.1, r.2)

/-- Embeds upload_files of upload.py lines 8-103.  The boto3 client
construction of lines 19-52 is an external collaborator with no influence
on the loop; date is the utcnow date folder captured once at line 54, and
the server identifier is resolved once at line 78, before the loop. -/
def upload_files (files : List FileEntry) (bucket pre : String)
    (net : NetEnv) (date : String) (putRes : String → Option String) :
    List UEvent × Except String (Option (List FileEntry)) :=
  uploadLoop bucket pre (_server_id net) date putRes files

/-- The names of the files for which the loop performed an upload attempt;
when the call returned without raising these are exactly the successfully
uploaded files. -/
def uploadedNames (trace : List UEvent) : List String :=
  trace.filterMap fun ev =>
    match ev with
    | UEvent.skip _ => none
    | UEvent.tryPut n _ => some n

/-- The trace the loop produces on a list it fully processes without a put
failure: an upload attempt for every file on disk and a skip for the
rest. -/
def okTrace (pre server date : String) : List FileEntry → List UEvent
  | [] => []
  | f :: rest =>
    if f.onDisk then
      UEvent.tryPut f.name (mkKey pre server (dbTypeOf f.name) date f.name)
        :: okTrace pre server date rest
    else UEvent.skip f.name :: okTrace pre server date rest

end Upload

namespace MySql

/-- Embeds _hostname of mysql.py lines 33-37: the machine hostname, or the
literal unknown-host when gethostname raises.  An empty hostname string is
returned as is. -/
def _hostname (net : NetEnv) : String :=
  match net.hostname with
  | some h => h
  | none => "unknown-host"

/-- Embeds _env of mysql.py lines 22-26: the raw environment value, absent
as none; a present value is stripped of whitespace and an empty result
falls back to the default. -/
def _env (raw : Option String) (default : Option String) : Option String :=
  match raw with
  | none => default
  | some v =>
    let s := pyStrip isPySpace v
    if s = "" then default else some s

/-- Embeds _databases_from_env of mysql.py lines 65-74: a comma-separated
MYSQL_DATABASES list takes precedence (pieces stripped, empty pieces
discarded, an all-empty result meaning none), else a single MYSQL_DATABASE
value, else none. -/
def _databases_from_env (dblistRaw singleRaw : Option String) : Option (List String) :=
  match _env dblistRaw none with
  | some dblist =>
    let dbs := ((pySplit ',' dblist).map (pyStrip isPySpace)).filter (fun d => d ≠ "")
    if dbs = [] then none else some dbs
  | none =>
    match _env singleRaw none with
    | some s => some [s]
    | none => none

/-- The artifact path mysql.py line 123 builds for one database. -/
def outPath (outDir host ts db : String) : String :=
  outDir ++ "/mysql_" ++ host ++ "_" ++ db ++ "_" ++ ts ++ ".sql.gz"

/-- Embeds the per-database loop of backup in mysql.py lines 122-129
together with the error behaviour of _run_and_gzip lines 139-151: dump
gives the external mysqldump exit code and stderr per database; a non-zero
exit raises RuntimeError with the message of line 145, and the loop has no
handler, so the whole call fails and the artifacts already dumped in this
call are discarded. -/
def backupLoop (outDir host ts : String) (dump : String → Int × String) :
    List String → Except String (List String)
  | [] => Except.ok []
  | db :: dbs =>
    let out := outPath outDir host ts db
    if (dump db).1 ≠ 0 then
      Except.error ("mysqldump failed with code " ++ toString (dump db).1 ++ ": " ++ (dump db).2)
    else
      match backupLoop outDir host ts dump dbs with
      | Except.ok created => Except.ok (out :: created)
      | Except.error e => Except.error e

end MySql

namespace Postgres

/-- Embeds _hostname of postgres.py lines 29-33, identical to the mysql
helper. -/
def _hostname (net : NetEnv) : String :=
  match net.hostname with
  | some h => h
  | none => "unknown-host"

/-- The artifact path postgres.py line 114 builds for one database. -/
def outPath (outDir host ts db : String) : String :=
  outDir ++ "/postgres_" ++ host ++ "_" ++ db ++ "_" ++ ts ++ ".sql.gz"

/-- Embeds the per-database loop of backup in postgres.py lines 113-120
together with the error behaviour of _run_and_gzip lines 123-138: a
non-zero pg_dump exit raises RuntimeError with the message of line 134 and
the loop has no handler, so the whole call fails. -/
def backupLoop (outDir host ts : String) (dump : String → Int × String) :
    List String → Except String (List String)
  | [] => Except.ok []
  | db :: dbs =>
    let out := outPath outDir host ts db
    if (dump db).1 ≠ 0 then
      Except.error ("postgres dump failed with code " ++ toString (dump db).1 ++ ": " ++ (dump db).2)
    else
      match backupLoop outDir host ts dump dbs with
      | Except.ok created => Except.ok (out :: created)
      | Except.error e => Except.error e

end Postgres

namespace Mongo

/-- Embeds _hostname of mongo.py lines 38-42, identical to the mysql
helper. -/
def _hostname (net : NetEnv) : String :=
  match net.hostname with
  | some h => h
  | none => "unknown-host"

/-- The artifact path mongo.py line 134 builds for one database. -/
def outPath (outDir host ts db : String) : String :=
  outDir ++ "/mongo_" ++ host ++ "_" ++ db ++ "_" ++ ts ++ ".archive.gz"

/-- Embeds the per-database loop of backup in mongo.py lines 133-168.
dumpOk is the outcome of the collection listing and document streaming of
lines 139-152, archiveOk the outcome of the tar writing of lines 158-166;
each phase is wrapped in its own handler that logs and continues with the
next database, so a failure skips only that database. -/
def backupLoop (outDir host ts : String) (dumpOk archiveOk : String → Bool) :
    List String → List String
  | [] => []
  | db :: dbs =>
    let out := outPath outDir host ts db
    if dumpOk db then
      if archiveOk db then out :: backupLoop outDir host ts dumpOk archiveOk dbs
      else backupLoop outDir host ts dumpOk archiveOk dbs
    else backupLoop outDir host ts dumpOk archiveOk dbs

end Mongo

/-- Decidable equality for the Except values the embedding uses. -/
instance {α β : Type} [DecidableEq α] [DecidableEq β] : DecidableEq (Except α β) :=
  fun x y =>
    match x, y with
    | Except.error a, Except.error b =>
      if h : a = b then isTrue (by rw [h])
      else isFalse (fun he => by cases he; exact h rfl)
    | Except.ok a, Except.ok b =>
      if h : a = b then isTrue (by rw [h])
      else isFalse (fun he => by cases he; exact h rfl)
    | Except.error _, Except.ok _ => isFalse (fun he => by cases he)
    | Except.ok _, Except.error _ => isFalse (fun he => by cases he)

namespace Main

/-- Embeds the duplicated helper _server_id of main.py lines 84-102, whose
body is character for character the one of upload.py lines 57-76. -/
def _server_id (net : NetEnv) : String :=
  match net.outboundIp with
  | some ip =>
    if ip ≠ "" then ip
    else match net.hostname with
      | some h => if h ≠ "" then h else "unknown-host"
      | none => "unknown-host"
  | none =>
    match net.hostname with
    | some h => if h ≠ "" then h else "unknown-host"
    | none => "unknown-host"

/-- Embeds the filename classification of main.py lines 111-120, the log
writer's copy of the rule of upload.py lines 86-95. -/
def dbTypeOf (name : String) : String :=
  let nameLower := pyLower name
  if pyStartsWith "mysql_" nameLower then "mysql"
  else if pyStartsWith "postgres_" nameLower then "postgres"
  else if pyStartsWith "mongo_" nameLower then "mongo"
  else "unknown"

/-- Embeds main.py line 121, the log writer's copy of the prefix
normalization of upload.py line 97 (key_prefix in the source). -/
def keyPre (pre : String) : String :=
  if pre ≠ "" then pyStrip isSlash pre ++ "/" else ""

/-- Embeds the key construction of main.py line 122. -/
def mkKey (pre server dbType date name : String) : String :=
  keyPre pre ++ server ++ "/" ++ dbType ++ "/" ++ date ++ "/" ++ name

/-- Embeds one iteration of the log body loop, main.py lines 106-123: the
resolved size (0 for a file no longer on disk), the db type inferred by
the log writer's rule, the key of line 122 and the rendered line of
line 123. -/
def logEntryLine (bucket pre server date : String) (p : FileEntry) : String :=
  let size := if p.onDisk then p.size else 0
  let dbType := dbTypeOf p.name
  let key := mkKey pre server dbType date p.name
  "- " ++ p.path ++ " | size=" ++ toString size ++ " bytes | s3://" ++ bucket ++ "/" ++ key

/-- Embeds the log content construction of main.py lines 74-123: the six
header lines followed by one line per file in created_files.  The server
identifier is resolved once at line 104, before the loop; date is the
utcnow date folder of line 81. -/
def logLines (bucket pre ts : String) (net : NetEnv) (date : String)
    (created : List FileEntry) : List String :=
  ["Backup run summary",
   "UTC Timestamp: " ++ ts,
   "S3 Bucket: " ++ bucket,
   "S3 Prefix: " ++ pre,
   "",
   "Uploaded files:"]
  ++ created.map (logEntryLine bucket pre (_server_id net) date)

/-- The outcome of one engine section of main.py lines 26-54: the detect
result and the backup call outcome (Except.error models a raised
exception, caught by main at the engine level). -/
structure EngineRun where
  det : Bool
  backupRes : Except String (List FileEntry)
deriving DecidableEq, Repr

/-- Embeds one engine block of main.py lines 26-54: on detect, a
successful backup contributes its files, a raised backup is caught and
logged; a failed detect logs the skip message. -/
def engineStep (er : EngineRun) (skipMsg failMsgPre : String) :
    List FileEntry × List String :=
  if er.det then
    match er.backupRes with
    | Except.ok created => (created, [])
    | Except.error e => ([], [failMsgPre ++ e])
  else ([], [skipMsg])

/-- Embeds the deletion loop of main.py lines 132-144 over the value of
uploaded_files: per file, a missing file is reported as already removed, a
successful unlink is counted and reported, a raised unlink is recorded as
a failed deletion.  Components: deleted paths, printed messages, failed
deletions. -/
def deleteLoop (unlinkRes : String → Option String) :
    List FileEntry → List String × List String × List (String × String)
  | [] => ([], [], [])
  | p :: rest =>
    let r := deleteLoop unlinkRes rest
    if p.onDisk then
      match unlinkRes p.path with
      | none =>
        (p.path :: r.1, ("[main] Deleted local backup file: " ++ p.path) :: r.2.1, r.2.2)
      | some e =>
        (r.1, ("[main] Failed to delete " ++ p.path ++ ": " ++ e) :: r.2.1,
         (p.path, e) :: r.2.2)
    else
      (r.1, ("[main] Backup file already removed: " ++ p.path) :: r.2.1, r.2.2)

/-- The observable outcome of one run of main: the exit code, or the
uncaught exception when the run crashes; the messages main itself printed;
the log file content when write_text succeeded; the locally deleted
paths. -/
structure MainRun where
  result : Except String Int
  printed : List String
  logText : Option (List String)
  deleted : List String
deriving DecidableEq, Repr

/-- Embeds main of main.py lines 16-150.  bucketEnv and pre are the
S3_BUCKET and S3_PREFIX environment values of lines 18-19 (pre defaults to
the empty string); myRun, pgRun and moRun the three engine sections; uNet
and uDate the network state and utcnow date upload_files sees; putRes the
storage put outcome per file name; outDir and ts the output directory and
utcnow timestamp of lines 69-70; lNet and lDate the network state and
utcnow date the log writer sees at lines 81-104; logWrite the write_text
outcome of line 124; unlinkRes the unlink outcome per path.  The upload
phase of line 62 binds uploaded_files to the return value of upload_files,
which is None; line 134 then iterates that None, raising TypeError, which
no handler catches. -/
def main (bucketEnv : Option String) (pre : String)
    (myRun pgRun moRun : EngineRun)
    (uNet : NetEnv) (uDate : String) (putRes : String → Option String)
    (outDir ts : String) (lNet : NetEnv) (lDate : String)
    (logWrite : Option String) (unlinkRes : String → Option String) : MainRun :=
  let bucket := bucketEnv.getD ""
  if bucket = "" then
    { result := Except.ok 2,
      printed := ["[main] S3_BUCKET environment variable is required."],
      logText := none, deleted := [] }
  else
    let myStep := engineStep myRun "[main] MySQL tools not found; skipping."
      "[main] MySQL backup failed: "
    let pgStep := engineStep pgRun "[main] Postgres tools not found; skipping."
      "[main] Postgres backup failed: "
    let moStep := engineStep moRun "[main] MongoDB tools not found; skipping."
      "[main] MongoDB backup failed: "
    let created := myStep.1 ++ pgStep.1 ++ moStep.1
    let msgs := myStep.2 ++ pgStep.2 ++ moStep.2
    if created = [] then
      { result := Except.ok 1,
        printed := msgs ++ ["[main] No backups were created. Nothing to upload."],
        logText := none, deleted := [] }
    else
      match (Upload.upload_files created bucket pre uNet uDate putRes).2 with
      | Except.error e =>
        { result := Except.ok 3,
          printed := msgs ++ ["[main] Upload to S3 failed: " ++ e,
            "[main] Local backup files preserved due to upload failure."],
          logText := none, deleted := [] }
      | Except.ok uploadedFiles =>
        let logPath := outDir ++ "/backup_log_" ++ ts ++ ".txt"
        let lines := logLines bucket pre ts lNet lDate created
        let logStep :=
          match logWrite with
          | none => (some lines, ["[main] Wrote backup log to " ++ logPath])
          | some e => ((none : Option (List String)),
              ["[main] Failed to write backup log: " ++ e])
        match uploadedFiles with
        | none =>
          { result := Except.error "TypeError: NoneType object is not iterable",
            printed := msgs ++ logStep.2,
            logText := logStep.1, deleted := [] }
        | some ups =>
          let del := deleteLoop unlinkRes ups
          let warn :=
            if del.2.2.length = 0 then ([] : List String)
            else ["[main] Warning: Failed to delete " ++ toString del.2.2.length
              ++ " local file(s). They may need manual cleanup."]
          { result := Except.ok 0,
            printed := msgs ++ logStep.2 ++ del.2.1 ++ warn ++
              ["[main] Backup and upload completed successfully. Deleted "
                ++ toString del.1.length ++ " local file(s)."],
            logText := logStep.1, deleted := del.1 }

end Main

/-! Helper lemmas. -/

/-- The first character surviving dropWhile does not satisfy the
predicate. -/
theorem dropWhile_head_false (p : Char → Bool) :
    ∀ (l : List Char) (c : Char) (t : List Char), l.dropWhile p = c :: t → p c = false := by
  intro l
  induction l with
  | nil => intro c t h; simp [List.dropWhile] at h
  | cons a l ih =>
    intro c t h
    rw [List.dropWhile_cons] at h
    by_cases hp : p a
    · simp [hp] at h
      exact ih c t h
    · simp [hp] at h
      simpa [← h.1] using hp

/-- dropEndWhile only removes from the end: a nonempty result starts with
the head of its input. -/
theorem dropEndWhile_head (p : Char → Bool) :
    ∀ (m : List Char) (c : Char) (t : List Char),
      dropEndWhile p m = c :: t → ∃ t', m = c :: t' := by
  intro m c t h
  cases m with
  | nil => simp [dropEndWhile] at h
  | cons a rest =>
    simp only [dropEndWhile] at h
    by_cases hc : (dropEndWhile p rest).isEmpty && p a
    · rw [if_pos hc] at h; cases h
    · rw [if_neg hc] at h
      injection h with h1 h2
      exact ⟨rest, by rw [h1]⟩

/-- The first character surviving a strip does not satisfy the stripped
predicate. -/
theorem stripChars_head_false (p : Char → Bool) (l : List Char) (c : Char) (t : List Char)
    (h : stripChars p l = c :: t) : p c = false := by
  unfold stripChars at h
  obtain ⟨t', ht'⟩ := dropEndWhile_head p _ c t h
  exact dropWhile_head_false p l c t' ht'

/-- The character list of the one-slash string literal. -/
theorem slash_data : ("/" : String).data = ['/'] := rfl

/-- A successful mysql backup call dumped every database in order, one
artifact each, and every dump exited with status zero. -/
theorem mysqlLoop_ok_spec (outDir host ts : String) (dump : String → Int × String) :
    ∀ (dbs created : List String),
      MySql.backupLoop outDir host ts dump dbs = Except.ok created →
      created = dbs.map (MySql.outPath outDir host ts) ∧ ∀ db ∈ dbs, (dump db).1 = 0 := by
  intro dbs
  induction dbs with
  | nil =>
    intro created h
    simp only [MySql.backupLoop, Except.ok.injEq] at h
    simp [← h]
  | cons db dbs ih =>
    intro created h
    simp only [MySql.backupLoop] at h
    by_cases hd : (dump db).1 ≠ 0
    · rw [if_pos hd] at h; cases h
    · rw [if_neg hd] at h
      push_neg at hd
      cases hrec : MySql.backupLoop outDir host ts dump dbs with
      | error e => rw [hrec] at h; cases h
      | ok created' =>
        rw [hrec] at h
        injection h with h1
        obtain ⟨hmap, hall⟩ := ih created' hrec
        constructor
        · rw [← h1, hmap]; rfl
        · intro x hx
          rcases List.mem_cons.mp hx with hx1 | hx2
          · rw [hx1]; exact hd
          · exact hall x hx2

/-- A successful postgres backup call dumped every database in order, one
artifact each, and every dump exited with status zero. -/
theorem postgresLoop_ok_spec (outDir host ts : String) (dump : String → Int × String) :
    ∀ (dbs created : List String),
      Postgres.backupLoop outDir host ts dump dbs = Except.ok created →
      created = dbs.map (Postgres.outPath outDir host ts) ∧ ∀ db ∈ dbs, (dump db).1 = 0 := by
  intro dbs
  induction dbs with
  | nil =>
    intro created h
    simp only [Postgres.backupLoop, Except.ok.injEq] at h
    simp [← h]
  | cons db dbs ih =>
    intro created h
    simp only [Postgres.backupLoop] at h
    by_cases hd : (dump db).1 ≠ 0
    · rw [if_pos hd] at h; cases h
    · rw [if_neg hd] at h
      push_neg at hd
      cases hrec : Postgres.backupLoop outDir host ts dump dbs with
      | error e => rw [hrec] at h; cases h
      | ok created' =>
        rw [hrec] at h
        injection h with h1
        obtain ⟨hmap, hall⟩ := ih created' hrec
        constructor
        · rw [← h1, hmap]; rfl
        · intro x hx
          rcases List.mem_cons.mp hx with hx1 | hx2
          · rw [hx1]; exact hd
          · exact hall x hx2

/-- The mongo backup loop keeps exactly the databases whose dump and
archive phases both succeeded, in order. -/
theorem mongoLoop_eq (outDir host ts : String) (dumpOk archiveOk : String → Bool) :
    ∀ dbs : List String,
      Mongo.backupLoop outDir host ts dumpOk archiveOk dbs
        = (dbs.filter (fun db => dumpOk db && archiveOk db)).map
            (Mongo.outPath outDir host ts) := by
  intro dbs
  induction dbs with
  | nil => rfl
  | cons db dbs ih =>
    by_cases h1 : dumpOk db <;> by_cases h2 : archiveOk db <;>
      simp [Mongo.backupLoop, List.filter_cons, h1, h2, ih]

/-- Within one run, the mysql artifact path determines the database. -/
theorem mysql_outPath_inj (outDir host ts : String) :
    Function.Injective (MySql.outPath outDir host ts) := by
  intro d1 d2 h
  have h' := congrArg String.data h
  simp only [MySql.outPath, String.data_append, List.append_assoc] at h'
  have h1 := List.append_cancel_left h'
  have h2 := List.append_cancel_left h1
  have h3 := List.append_cancel_left h2
  have h4 := List.append_cancel_left h3
  exact String.ext (List.append_cancel_right h4)

/-- Every upload attempt in one loop invocation uses a key built from the
invocation's own server identifier and date folder. -/
theorem uploadLoop_tryPut_key (bucket pre server date : String)
    (putRes : String → Option String) :
    ∀ (files : List FileEntry) (n k : String),
      Upload.UEvent.tryPut n k ∈ (Upload.uploadLoop bucket pre server date putRes files).1 →
      k = Upload.mkKey pre server (Upload.dbTypeOf n) date n := by
  intro files
  induction files with
  | nil => intro n k h; simp [Upload.uploadLoop] at h
  | cons f rest ih =>
    intro n k h
    by_cases hd : f.onDisk
    · simp only [Upload.uploadLoop, hd, if_true] at h
      cases hput : putRes f.name with
      | some e =>
        rw [hput] at h
        simp only [List.mem_singleton, Upload.UEvent.tryPut.injEq] at h
        rw [h.2, h.1]
      | none =>
        rw [hput] at h
        rcases List.mem_cons.mp h with h1 | h2
        · injection h1 with hn hk
          rw [hk, hn]
        · exact ih n k h2
    · simp only [Upload.uploadLoop, hd, if_false, Bool.false_eq_true] at h
      rcases List.mem_cons.mp h with h1 | h2
      · cases h1
      · exact ih n k h2

/-- When every file before a failing one is handled cleanly and that file
is on disk with a failing put, the loop produces the trace of the earlier
files followed by the one failing attempt, and raises; the files after the
failing one leave no trace. -/
theorem uploadLoop_fail_eq (bucket pre server date : String)
    (putRes : String → Option String) (f : FileEntry) (bs : List FileEntry) (e : String)
    (hf : f.onDisk = true) (hfe : putRes f.name = some e) :
    ∀ as : List FileEntry, (∀ g ∈ as, g.onDisk = true → putRes g.name = none) →
      Upload.uploadLoop bucket pre server date putRes (as ++ f :: bs)
        = (Upload.okTrace pre server date as
            ++ [Upload.UEvent.tryPut f.name
                 (Upload.mkKey pre server (Upload.dbTypeOf f.name) date f.name)],
           Except.error ("Failed to upload " ++ f.path ++ " to s3://" ++ bucket ++ "/"
             ++ Upload.mkKey pre server (Upload.dbTypeOf f.name) date f.name ++ ": " ++ e)) := by
  intro as
  induction as with
  | nil =>
    intro _
    simp only [List.nil_append, Upload.uploadLoop, hf, if_true, hfe, Upload.okTrace]
  | cons g gs ih =>
    intro hok
    have hok' : ∀ x ∈ gs, x.onDisk = true → putRes x.name = none :=
      fun x hx => hok x (List.mem_cons_of_mem _ hx)
    by_cases hg : g.onDisk
    · have hput : putRes g.name = none := hok g (List.mem_cons_self _ _) hg
      simp only [List.cons_append, Upload.uploadLoop, hg, if_true, hput, Upload.okTrace,
        List.append_eq, ih hok']
    · simp only [List.cons_append, Upload.uploadLoop, hg, if_false, Bool.false_eq_true,
        Upload.okTrace, List.append_eq, ih hok']

/-! Claim theorems. -/

/-- C1: upload_files does not return the successfully uploaded subset of
its input: even on a fully successful call over one existing file whose
put succeeds, the Python return value is None (modelled as the ok payload
none), never a list of uploaded artifacts. -/
theorem C1_returns_none :
    (Upload.upload_files
        [⟨"backups/mysql_h_a_T.sql.gz", "mysql_h_a_T.sql.gz", true, 5⟩]
        "bkt" "" ⟨some "1.2.3.4", some "h"⟩ "2026-01-02" (fun _ => none)).2
      = Except.ok none
    ∧ ∀ l : List FileEntry,
        (Upload.upload_files
            [⟨"backups/mysql_h_a_T.sql.gz", "mysql_h_a_T.sql.gz", true, 5⟩]
            "bkt" "" ⟨some "1.2.3.4", some "h"⟩ "2026-01-02" (fun _ => none)).2
          ≠ Except.ok (some l) := by
  refine ⟨by decide, ?_⟩
  intro l h
  rw [show (Upload.upload_files
      [⟨"backups/mysql_h_a_T.sql.gz", "mysql_h_a_T.sql.gz", true, 5⟩]
      "bkt" "" ⟨some "1.2.3.4", some "h"⟩ "2026-01-02" (fun _ => none)).2
    = Except.ok none from by decide] at h
  exact Option.noConfusion (Except.ok.inj h)

/-- C2: on a fully successful run (bucket configured, one artifact
produced, its put succeeding, the log written) main does not return exit
status 0 with the uploaded artifact deleted: line 134 iterates the None
returned by upload_files, so the run dies with an uncaught TypeError and
deletes nothing. -/
theorem C2_success_path_crashes :
    (Main.main (some "bkt") ""
        ⟨true, Except.ok [⟨"backups/mysql_h_a_T.sql.gz", "mysql_h_a_T.sql.gz", true, 5⟩]⟩
        ⟨false, Except.ok []⟩ ⟨false, Except.ok []⟩
        ⟨some "1.2.3.4", some "h"⟩ "2026-01-02" (fun _ => none)
        "backups" "20260102T000000Z" ⟨some "1.2.3.4", some "h"⟩ "2026-01-02"
        none (fun _ => none)).result
      = Except.error "TypeError: NoneType object is not iterable"
    ∧ (Main.main (some "bkt") ""
        ⟨true, Except.ok [⟨"backups/mysql_h_a_T.sql.gz", "mysql_h_a_T.sql.gz", true, 5⟩]⟩
        ⟨false, Except.ok []⟩ ⟨false, Except.ok []⟩
        ⟨some "1.2.3.4", some "h"⟩ "2026-01-02" (fun _ => none)
        "backups" "20260102T000000Z" ⟨some "1.2.3.4", some "h"⟩ "2026-01-02"
        none (fun _ => none)).deleted
      = [] := by
  exact ⟨by decide, by decide⟩

/-- C3 counterexample: in the mysql driver a failing dump of the first
database aborts the whole backup call: with databases a and b and the dump
of a exiting 1, the call raises and no artifact for b is produced or
returned. -/
theorem C3_counterexample :
    MySql.backupLoop "backups" "h" "T"
        (fun db => if db = "a" then (1, "boom") else (0, "")) ["a", "b"]
      = Except.error "mysqldump failed with code 1: boom"
    ∧ ∀ created : List String,
        MySql.backupLoop "backups" "h" "T"
            (fun db => if db = "a" then (1, "boom") else (0, "")) ["a", "b"]
          ≠ Except.ok created := by
  refine ⟨by decide, ?_⟩
  intro created h
  rw [show MySql.backupLoop "backups" "h" "T"
      (fun db => if db = "a" then (1, "boom") else (0, "")) ["a", "b"]
    = Except.error "mysqldump failed with code 1: boom" from by decide] at h
  exact Except.noConfusion h

/-- C3 amended: only the document-store driver isolates per-database
failures: the mongo loop skips a database whose dump or archive phase
fails and still produces the artifacts of every database whose phases
succeed, while the mysql and postgres loops abort the whole backup call as
soon as any database's dump exits non-zero, so the call never returns a
list of artifacts. -/
theorem C3_amended_isolation :
    (∀ (outDir host ts : String) (dumpOk archiveOk : String → Bool) (dbs : List String),
      Mongo.backupLoop outDir host ts dumpOk archiveOk dbs
        = (dbs.filter (fun db => dumpOk db && archiveOk db)).map
            (Mongo.outPath outDir host ts))
    ∧ (∀ (outDir host ts : String) (dump : String → Int × String) (dbs : List String),
        (∃ db ∈ dbs, (dump db).1 ≠ 0) →
        ∀ created : List String,
          MySql.backupLoop outDir host ts dump dbs ≠ Except.ok created)
    ∧ (∀ (outDir host ts : String) (dump : String → Int × String) (dbs : List String),
        (∃ db ∈ dbs, (dump db).1 ≠ 0) →
        ∀ created : List String,
          Postgres.backupLoop outDir host ts dump dbs ≠ Except.ok created) := by
  refine ⟨fun o h t d a dbs => mongoLoop_eq o h t d a dbs, ?_, ?_⟩
  · rintro o h t dump dbs ⟨db, hmem, hfail⟩ created hok
    exact hfail ((mysqlLoop_ok_spec o h t dump dbs created hok).2 db hmem)
  · rintro o h t dump dbs ⟨db, hmem, hfail⟩ created hok
    exact hfail ((postgresLoop_ok_spec o h t dump dbs created hok).2 db hmem)

/-- C3 amended witness: concrete instances: the mongo loop over databases
a, b, c with the dump of b failing still yields the artifacts of a and c,
and the mysql and postgres loops over a, b with the dump of a failing
never return a created list. -/
theorem C3_amended_isolation_witness :
    Mongo.backupLoop "o" "h" "t" (fun db => db != "b") (fun _ => true) ["a", "b", "c"]
      = ["o/mongo_h_a_t.archive.gz", "o/mongo_h_c_t.archive.gz"]
    ∧ MySql.backupLoop "o" "h" "t"
        (fun db => if db = "a" then (1, "x") else (0, "")) ["a", "b"]
      ≠ Except.ok []
    ∧ Postgres.backupLoop "o" "h" "t"
        (fun db => if db = "a" then (1, "x") else (0, "")) ["a", "b"]
      ≠ Except.ok [] := by
  refine ⟨?_, ?_, ?_⟩
  · rw [C3_amended_isolation.1]; decide
  · exact C3_amended_isolation.2.1 "o" "h" "t"
      (fun db => if db = "a" then (1, "x") else (0, "")) ["a", "b"]
      ⟨"a", by decide, by decide⟩ []
  · exact C3_amended_isolation.2.2 "o" "h" "t"
      (fun db => if db = "a" then (1, "x") else (0, "")) ["a", "b"]
      ⟨"a", by decide, by decide⟩ []

/-- C5: the filename-to-engine-tag inference of the Upload Manager
(upload.py lines 86-95) and the one of the log writer (main.py lines
111-120) agree on every filename, and the shared result is always one of
mysql, postgres, mongo or unknown. -/
theorem C5_classifier_agreement (name : String) :
    Upload.dbTypeOf name = Main.dbTypeOf name
    ∧ (Upload.dbTypeOf name = "mysql" ∨ Upload.dbTypeOf name = "postgres"
        ∨ Upload.dbTypeOf name = "mongo" ∨ Upload.dbTypeOf name = "unknown") := by
  refine ⟨rfl, ?_⟩
  unfold Upload.dbTypeOf
  by_cases h1 : pyStartsWith "mysql_" (pyLower name)
  · simp [h1]
  · by_cases h2 : pyStartsWith "postgres_" (pyLower name)
    · simp [h1, h2]
    · by_cases h3 : pyStartsWith "mongo_" (pyLower name)
      · simp [h1, h2, h3]
      · simp [h1, h2, h3]

/-- C9 counterexample: the prefix consisting of a single separator defeats
the claimed normalization: both key builders produce a key that begins
with a separator, because line 97 of upload.py and line 121 of main.py
re-append a slash to the empty normalized prefix. -/
theorem C9_counterexample :
    Upload.mkKey "/" "1.2.3.4" "mysql" "2026-01-02" "f.sql.gz"
      = "/1.2.3.4/mysql/2026-01-02/f.sql.gz"
    ∧ ("/1.2.3.4/mysql/2026-01-02/f.sql.gz" : String).data.head? = some '/'
    ∧ Main.mkKey "/" "1.2.3.4" "mysql" "2026-01-02" "f.sql.gz"
      = "/1.2.3.4/mysql/2026-01-02/f.sql.gz" := by
  exact ⟨by decide, by decide, by decide⟩

/-- C9 amended: the key is the fixed-order concatenation of the normalized
prefix and the host, engine, date and filename segments, and both call
sites build it identically; whenever the prefix strips to something
nonempty the key starts with a non-separator character, but a nonempty
prefix consisting only of separators strips to the empty string and the
re-appended joining slash then puts a separator at the front of the
key. -/
theorem C9_amended_key_shape :
    (∀ pre server eng d f : String,
      Upload.mkKey pre server eng d f
        = Upload.basePre pre ++ server ++ "/" ++ eng ++ "/" ++ d ++ "/" ++ f
      ∧ Main.mkKey pre server eng d f = Upload.mkKey pre server eng d f)
    ∧ (∀ pre server eng d f : String, pre ≠ "" →
        stripChars isSlash pre.data ≠ [] →
        (Upload.mkKey pre server eng d f).data.head? ≠ some '/')
    ∧ (∀ pre server eng d f : String, pre ≠ "" →
        stripChars isSlash pre.data = [] →
        (Upload.mkKey pre server eng d f).data.head? = some '/') := by
  refine ⟨fun pre server eng d f => ⟨rfl, rfl⟩, ?_, ?_⟩
  · intro pre server eng d f hpre hne
    obtain ⟨c, t, hct⟩ : ∃ c t, stripChars isSlash pre.data = c :: t := by
      cases hx : stripChars isSlash pre.data with
      | nil => exact absurd hx hne
      | cons c t => exact ⟨c, t, rfl⟩
    have hc : isSlash c = false := stripChars_head_false _ _ _ _ hct
    unfold Upload.mkKey Upload.basePre
    rw [if_pos hpre]
    simp only [String.data_append, List.append_assoc]
    rw [show (pyStrip isSlash pre).data = stripChars isSlash pre.data from rfl, hct]
    simp only [List.cons_append, List.head?_cons, ne_eq, Option.some.injEq]
    intro hcc
    rw [hcc] at hc
    simp [isSlash] at hc
  · intro pre server eng d f hpre hz
    unfold Upload.mkKey Upload.basePre
    rw [if_pos hpre]
    simp only [String.data_append, List.append_assoc]
    rw [show (pyStrip isSlash pre).data = stripChars isSlash pre.data from rfl, hz]
    simp

/-- C9 amended witness: a prefix with a non-separator character yields a
key not starting with a separator; the all-separator prefix of two slashes
yields a key starting with one. -/
theorem C9_amended_key_shape_witness :
    (Upload.mkKey "a/b" "s" "m" "d" "f").data.head? ≠ some '/'
    ∧ (Upload.mkKey "//" "s" "m" "d" "f").data.head? = some '/' :=
  ⟨C9_amended_key_shape.2.1 "a/b" "s" "m" "d" "f" (by decide) (by decide),
   C9_amended_key_shape.2.2 "//" "s" "m" "d" "f" (by decide) (by decide)⟩

/-- C10: every upload attempt of one upload_files invocation uses a key
built from the invocation's single server identifier (resolved once before
the loop at line 78) and its single date folder (captured once at
line 54): every tryPut key equals the key builder applied to those shared
values and the file's own name. -/
theorem C10_single_host_and_date (files : List FileEntry) (bucket pre : String)
    (net : NetEnv) (date : String) (putRes : String → Option String) (n k : String)
    (h : Upload.UEvent.tryPut n k
      ∈ (Upload.upload_files files bucket pre net date putRes).1) :
    k = Upload.mkKey pre (Upload._server_id net) (Upload.dbTypeOf n) date n :=
  uploadLoop_tryPut_key bucket pre (Upload._server_id net) date putRes files n k h

/-- C10 witness: in a two-file invocation both attempted keys carry the
one resolved server identifier and the one date folder. -/
theorem C10_single_host_and_date_witness :
    (Upload.UEvent.tryPut "mysql_h_a_T.sql.gz"
        "1.2.3.4/mysql/2026-01-02/mysql_h_a_T.sql.gz"
      ∈ (Upload.upload_files
          [⟨"backups/mysql_h_a_T.sql.gz", "mysql_h_a_T.sql.gz", true, 5⟩,
           ⟨"backups/postgres_h_b_T.sql.gz", "postgres_h_b_T.sql.gz", true, 7⟩]
          "bkt" "" ⟨some "1.2.3.4", some "h"⟩ "2026-01-02" (fun _ => none)).1)
    ∧ "1.2.3.4/mysql/2026-01-02/mysql_h_a_T.sql.gz"
      = Upload.mkKey "" (Upload._server_id ⟨some "1.2.3.4", some "h"⟩)
          (Upload.dbTypeOf "mysql_h_a_T.sql.gz") "2026-01-02" "mysql_h_a_T.sql.gz" :=
  ⟨by decide,
   C10_single_host_and_date
     [⟨"backups/mysql_h_a_T.sql.gz", "mysql_h_a_T.sql.gz", true, 5⟩,
      ⟨"backups/postgres_h_b_T.sql.gz", "postgres_h_b_T.sql.gz", true, 7⟩]
     "bkt" "" ⟨some "1.2.3.4", some "h"⟩ "2026-01-02" (fun _ => none)
     "mysql_h_a_T.sql.gz" "1.2.3.4/mysql/2026-01-02/mysql_h_a_T.sql.gz"
     (by decide)⟩

/-- C4 counterexample: with two produced artifacts of which the second is
no longer on disk, the upload phase succeeds having uploaded only the
first, yet the Run Log main writes enumerates both, including a line with
size 0 and a computed key for the file that was skipped and never
uploaded. -/
theorem C4_counterexample :
    (Main.main (some "bkt") ""
        ⟨true, Except.ok
          [⟨"backups/mysql_h_a_T.sql.gz", "mysql_h_a_T.sql.gz", true, 5⟩,
           ⟨"backups/mysql_h_b_T.sql.gz", "mysql_h_b_T.sql.gz", false, 7⟩]⟩
        ⟨false, Except.ok []⟩ ⟨false, Except.ok []⟩
        ⟨some "1.2.3.4", some "h"⟩ "2026-01-02" (fun _ => none)
        "backups" "TS" ⟨some "1.2.3.4", some "h"⟩ "2026-01-02"
        none (fun _ => none)).logText
      = some ["Backup run summary", "UTC Timestamp: TS", "S3 Bucket: bkt",
          "S3 Prefix: ", "", "Uploaded files:",
          "- backups/mysql_h_a_T.sql.gz | size=5 bytes | s3://bkt/1.2.3.4/mysql/2026-01-02/mysql_h_a_T.sql.gz",
          "- backups/mysql_h_b_T.sql.gz | size=0 bytes | s3://bkt/1.2.3.4/mysql/2026-01-02/mysql_h_b_T.sql.gz"]
    ∧ Upload.uploadedNames
        (Upload.upload_files
          [⟨"backups/mysql_h_a_T.sql.gz", "mysql_h_a_T.sql.gz", true, 5⟩,
           ⟨"backups/mysql_h_b_T.sql.gz", "mysql_h_b_T.sql.gz", false, 7⟩]
          "bkt" "" ⟨some "1.2.3.4", some "h"⟩ "2026-01-02" (fun _ => none)).1
      = ["mysql_h_a_T.sql.gz"]
    ∧ (Upload.upload_files
          [⟨"backups/mysql_h_a_T.sql.gz", "mysql_h_a_T.sql.gz", true, 5⟩,
           ⟨"backups/mysql_h_b_T.sql.gz", "mysql_h_b_T.sql.gz", false, 7⟩]
          "bkt" "" ⟨some "1.2.3.4", some "h"⟩ "2026-01-02" (fun _ => none)).2
      = Except.ok none := by
  exact ⟨by decide, by decide, by decide⟩

/-- C4 amended: when the upload phase returns without raising and the log
write succeeds, the Run Log enumerates exactly the artifacts the drivers
produced (the aggregated created list, including any file the upload phase
skipped because it was missing on disk, logged with size 0), each line
carrying the resolved size and the key computed by the log writer. -/
theorem C4_amended_log_covers_created (bucket pre : String)
    (myRun pgRun moRun : Main.EngineRun) (uNet : NetEnv) (uDate : String)
    (putRes : String → Option String) (outDir ts : String) (lNet : NetEnv)
    (lDate : String) (unlinkRes : String → Option String)
    (created : List FileEntry) (v : Option (List FileEntry))
    (hb : bucket ≠ "")
    (hc : created
      = (Main.engineStep myRun "[main] MySQL tools not found; skipping."
          "[main] MySQL backup failed: ").1
        ++ (Main.engineStep pgRun "[main] Postgres tools not found; skipping."
          "[main] Postgres backup failed: ").1
        ++ (Main.engineStep moRun "[main] MongoDB tools not found; skipping."
          "[main] MongoDB backup failed: ").1)
    (hne : created ≠ [])
    (hup : (Upload.upload_files created bucket pre uNet uDate putRes).2 = Except.ok v) :
    (Main.main (some bucket) pre myRun pgRun moRun uNet uDate putRes outDir ts lNet
        lDate none unlinkRes).logText
      = some (["Backup run summary", "UTC Timestamp: " ++ ts, "S3 Bucket: " ++ bucket,
          "S3 Prefix: " ++ pre, "", "Uploaded files:"]
        ++ created.map (Main.logEntryLine bucket pre (Main._server_id lNet) lDate)) := by
  subst hc
  simp only [Main.main, Option.getD_some]
  rw [if_neg hb, if_neg hne, hup]
  cases v with
  | none => rfl
  | some ups => rfl

/-- C4 amended witness: a concrete run over one existing and one missing
artifact writes the log that enumerates both created artifacts. -/
theorem C4_amended_log_covers_created_witness :
    (Main.main (some "bkt") ""
        ⟨true, Except.ok
          [⟨"backups/mysql_h_a_T.sql.gz", "mysql_h_a_T.sql.gz", true, 5⟩,
           ⟨"backups/mysql_h_b_T.sql.gz", "mysql_h_b_T.sql.gz", false, 7⟩]⟩
        ⟨false, Except.ok []⟩ ⟨false, Except.ok []⟩
        ⟨some "1.2.3.4", some "h"⟩ "2026-01-02" (fun _ => none)
        "backups" "TS" ⟨some "1.2.3.4", some "h"⟩ "2026-01-02"
        none (fun _ => none)).logText
      = some (["Backup run summary", "UTC Timestamp: " ++ "TS", "S3 Bucket: " ++ "bkt",
          "S3 Prefix: " ++ "", "", "Uploaded files:"]
        ++ ([⟨"backups/mysql_h_a_T.sql.gz", "mysql_h_a_T.sql.gz", true, 5⟩,
             ⟨"backups/mysql_h_b_T.sql.gz", "mysql_h_b_T.sql.gz", false, 7⟩]
            : List FileEntry).map
          (Main.logEntryLine "bkt" ""
            (Main._server_id ⟨some "1.2.3.4", some "h"⟩) "2026-01-02")) :=
  C4_amended_log_covers_created "bkt" ""
    ⟨true, Except.ok
      [⟨"backups/mysql_h_a_T.sql.gz", "mysql_h_a_T.sql.gz", true, 5⟩,
       ⟨"backups/mysql_h_b_T.sql.gz", "mysql_h_b_T.sql.gz", false, 7⟩]⟩
    ⟨false, Except.ok []⟩ ⟨false, Except.ok []⟩
    ⟨some "1.2.3.4", some "h"⟩ "2026-01-02" (fun _ => none)
    "backups" "TS" ⟨some "1.2.3.4", some "h"⟩ "2026-01-02" (fun _ => none)
    [⟨"backups/mysql_h_a_T.sql.gz", "mysql_h_a_T.sql.gz", true, 5⟩,
     ⟨"backups/mysql_h_b_T.sql.gz", "mysql_h_b_T.sql.gz", false, 7⟩]
    none (by decide) (by decide) (by decide) (by decide)

/-- C6: a put failure on one file is a hard failure for the whole
upload_files call: the loop performs the attempts for the earlier files,
makes the one failing attempt, raises without touching the later files,
and main then exits with status 3, deletes nothing and prints the explicit
preservation message. -/
theorem C6_put_failure_hard (bucket pre : String) (uNet : NetEnv) (uDate : String)
    (putRes : String → Option String) (as : List FileEntry) (f : FileEntry)
    (bs : List FileEntry) (e : String) (outDir ts : String) (lNet : NetEnv)
    (lDate : String) (logWrite : Option String) (unlinkRes : String → Option String)
    (hb : bucket ≠ "")
    (hok : ∀ g ∈ as, g.onDisk = true → putRes g.name = none)
    (hf : f.onDisk = true) (hfe : putRes f.name = some e) :
    Upload.upload_files (as ++ f :: bs) bucket pre uNet uDate putRes
      = (Upload.okTrace pre (Upload._server_id uNet) uDate as
          ++ [Upload.UEvent.tryPut f.name
               (Upload.mkKey pre (Upload._server_id uNet) (Upload.dbTypeOf f.name)
                 uDate f.name)],
         Except.error ("Failed to upload " ++ f.path ++ " to s3://" ++ bucket ++ "/"
           ++ Upload.mkKey pre (Upload._server_id uNet) (Upload.dbTypeOf f.name)
             uDate f.name ++ ": " ++ e))
    ∧ Main.main (some bucket) pre ⟨true, Except.ok (as ++ f :: bs)⟩
        ⟨false, Except.ok []⟩ ⟨false, Except.ok []⟩ uNet uDate putRes outDir ts lNet
        lDate logWrite unlinkRes
      = { result := Except.ok 3,
          printed := ["[main] Postgres tools not found; skipping.",
            "[main] MongoDB tools not found; skipping.",
            "[main] Upload to S3 failed: "
              ++ ("Failed to upload " ++ f.path ++ " to s3://" ++ bucket ++ "/"
                ++ Upload.mkKey pre (Upload._server_id uNet) (Upload.dbTypeOf f.name)
                  uDate f.name ++ ": " ++ e),
            "[main] Local backup files preserved due to upload failure."],
          logText := none, deleted := [] } := by
  have hupair :=
    uploadLoop_fail_eq bucket pre (Upload._server_id uNet) uDate putRes f bs e hf hfe as hok
  have hup2 : (Upload.upload_files (as ++ f :: bs) bucket pre uNet uDate putRes).2
      = Except.error ("Failed to upload " ++ f.path ++ " to s3://" ++ bucket ++ "/"
          ++ Upload.mkKey pre (Upload._server_id uNet) (Upload.dbTypeOf f.name)
            uDate f.name ++ ": " ++ e) := by
    show (Upload.uploadLoop bucket pre (Upload._server_id uNet) uDate putRes
      (as ++ f :: bs)).2 = _
    rw [hupair]
  refine ⟨hupair, ?_⟩
  simp only [Main.main, Option.getD_some, Main.engineStep, if_true, Bool.false_eq_true,
    if_false, List.append_nil, List.nil_append]
  rw [if_neg hb, if_neg (show ¬(as ++ f :: bs = []) by simp), hup2]
  rfl

/-- C6 witness: one clean earlier file, one failing file, one later file:
the trace stops at the failing attempt, and main reports exit status 3,
deletes nothing and prints the preservation message. -/
theorem C6_put_failure_hard_witness :
    Upload.upload_files
        [⟨"backups/mysql_h_a_T.sql.gz", "mysql_h_a_T.sql.gz", true, 5⟩,
         ⟨"backups/mysql_h_b_T.sql.gz", "mysql_h_b_T.sql.gz", true, 6⟩,
         ⟨"backups/mysql_h_c_T.sql.gz", "mysql_h_c_T.sql.gz", true, 7⟩]
        "bkt" "" ⟨some "1.2.3.4", some "h"⟩ "2026-01-02"
        (fun n => if n = "mysql_h_b_T.sql.gz" then some "denied" else none)
      = (Upload.okTrace "" (Upload._server_id ⟨some "1.2.3.4", some "h"⟩) "2026-01-02"
          [⟨"backups/mysql_h_a_T.sql.gz", "mysql_h_a_T.sql.gz", true, 5⟩]
          ++ [Upload.UEvent.tryPut "mysql_h_b_T.sql.gz"
               (Upload.mkKey "" (Upload._server_id ⟨some "1.2.3.4", some "h"⟩)
                 (Upload.dbTypeOf "mysql_h_b_T.sql.gz") "2026-01-02"
                 "mysql_h_b_T.sql.gz")],
         Except.error ("Failed to upload " ++ "backups/mysql_h_b_T.sql.gz"
           ++ " to s3://" ++ "bkt" ++ "/"
           ++ Upload.mkKey "" (Upload._server_id ⟨some "1.2.3.4", some "h"⟩)
             (Upload.dbTypeOf "mysql_h_b_T.sql.gz") "2026-01-02" "mysql_h_b_T.sql.gz"
           ++ ": " ++ "denied"))
    ∧ Main.main (some "bkt") ""
        ⟨true, Except.ok
          [⟨"backups/mysql_h_a_T.sql.gz", "mysql_h_a_T.sql.gz", true, 5⟩,
           ⟨"backups/mysql_h_b_T.sql.gz", "mysql_h_b_T.sql.gz", true, 6⟩,
           ⟨"backups/mysql_h_c_T.sql.gz", "mysql_h_c_T.sql.gz", true, 7⟩]⟩
        ⟨false, Except.ok []⟩ ⟨false, Except.ok []⟩
        ⟨some "1.2.3.4", some "h"⟩ "2026-01-02"
        (fun n => if n = "mysql_h_b_T.sql.gz" then some "denied" else none)
        "backups" "TS" ⟨some "1.2.3.4", some "h"⟩ "2026-01-02" none (fun _ => none)
      = { result := Except.ok 3,
          printed := ["[main] Postgres tools not found; skipping.",
            "[main] MongoDB tools not found; skipping.",
            "[main] Upload to S3 failed: "
              ++ ("Failed to upload " ++ "backups/mysql_h_b_T.sql.gz" ++ " to s3://"
                ++ "bkt" ++ "/"
                ++ Upload.mkKey "" (Upload._server_id ⟨some "1.2.3.4", some "h"⟩)
                  (Upload.dbTypeOf "mysql_h_b_T.sql.gz") "2026-01-02"
                  "mysql_h_b_T.sql.gz" ++ ": " ++ "denied"),
            "[main] Local backup files preserved due to upload failure."],
          logText := none, deleted := [] } :=
  C6_put_failure_hard "bkt" "" ⟨some "1.2.3.4", some "h"⟩ "2026-01-02"
    (fun n => if n = "mysql_h_b_T.sql.gz" then some "denied" else none)
    [⟨"backups/mysql_h_a_T.sql.gz", "mysql_h_a_T.sql.gz", true, 5⟩]
    ⟨"backups/mysql_h_b_T.sql.gz", "mysql_h_b_T.sql.gz", true, 6⟩
    [⟨"backups/mysql_h_c_T.sql.gz", "mysql_h_c_T.sql.gz", true, 7⟩]
    "denied" "backups" "TS" ⟨some "1.2.3.4", some "h"⟩ "2026-01-02" none
    (fun _ => none) (by decide) (by decide) (by decide) (by decide)

/-- C7 counterexample: with an available outbound IP of 10.0.0.5 and
hostname myhost, the driver names the artifact with myhost (the drivers
resolve the hostname only) while the upload key for that very artifact
carries 10.0.0.5 (the key resolvers prefer the IP): no single resolved
host identity is used in both places. -/
theorem C7_counterexample :
    MySql._hostname ⟨some "10.0.0.5", some "myhost"⟩ = "myhost"
    ∧ Upload._server_id ⟨some "10.0.0.5", some "myhost"⟩ = "10.0.0.5"
    ∧ MySql.backupLoop "backups"
        (MySql._hostname ⟨some "10.0.0.5", some "myhost"⟩) "T" (fun _ => (0, ""))
        ["orders"]
      = Except.ok ["backups/mysql_myhost_orders_T.sql.gz"]
    ∧ (Upload.upload_files
        [⟨"backups/mysql_myhost_orders_T.sql.gz", "mysql_myhost_orders_T.sql.gz",
          true, 5⟩]
        "bkt" "" ⟨some "10.0.0.5", some "myhost"⟩ "2026-01-02" (fun _ => none)).1
      = [Upload.UEvent.tryPut "mysql_myhost_orders_T.sql.gz"
          "10.0.0.5/mysql/2026-01-02/mysql_myhost_orders_T.sql.gz"]
    ∧ ("myhost" : String) ≠ "10.0.0.5" := by
  exact ⟨by decide, by decide, by decide, by decide, by decide⟩

/-- C7 amended: the host identity used in storage keys follows the
fallback order outbound IP, then hostname, then unknown-host, and the two
key-computing call sites (upload.py and the log writer of main.py) resolve
it identically; artifact filenames instead use the machine hostname (with
unknown-host only when gethostname raises), resolved separately in each
driver, and the two resolutions agree whenever no outbound IP is
available and the hostname is nonempty. -/
theorem C7_amended_two_resolvers :
    (∀ net : NetEnv, Upload._server_id net = Main._server_id net)
    ∧ (∀ (net : NetEnv) (ip : String),
        net.outboundIp = some ip → ip ≠ "" → Upload._server_id net = ip)
    ∧ (∀ (net : NetEnv) (h : String),
        (net.outboundIp = none ∨ net.outboundIp = some "") →
        net.hostname = some h → h ≠ "" →
        Upload._server_id net = h ∧ MySql._hostname net = h)
    ∧ (∀ net : NetEnv,
        (net.outboundIp = none ∨ net.outboundIp = some "") →
        (net.hostname = none ∨ net.hostname = some "") →
        Upload._server_id net = "unknown-host") := by
  refine ⟨fun net => rfl, ?_, ?_, ?_⟩
  · intro net ip hip hne
    simp [Upload._server_id, hip, hne]
  · rintro net h (hip | hip) hh hne <;>
      simp [Upload._server_id, MySql._hostname, hip, hh, hne]
  · rintro net (hip | hip) (hh | hh) <;>
      simp [Upload._server_id, hip, hh]

/-- C7 amended witness: concrete instances of the consistency of the two
key resolvers, the IP preference, the no-IP agreement with the filename
resolver, and the final fallback. -/
theorem C7_amended_two_resolvers_witness :
    Upload._server_id ⟨none, some "host9"⟩ = Main._server_id ⟨none, some "host9"⟩
    ∧ Upload._server_id ⟨some "10.0.0.5", some "host9"⟩ = "10.0.0.5"
    ∧ (Upload._server_id ⟨none, some "host9"⟩ = "host9"
        ∧ MySql._hostname ⟨none, some "host9"⟩ = "host9")
    ∧ Upload._server_id ⟨none, none⟩ = "unknown-host" :=
  ⟨C7_amended_two_resolvers.1 ⟨none, some "host9"⟩,
   C7_amended_two_resolvers.2.1 ⟨some "10.0.0.5", some "host9"⟩ "10.0.0.5" rfl
     (by decide),
   C7_amended_two_resolvers.2.2.1 ⟨none, some "host9"⟩ "host9" (Or.inl rfl) rfl
     (by decide),
   C7_amended_two_resolvers.2.2.2 ⟨none, none⟩ (Or.inl rfl) (Or.inl rfl)⟩

/-- C8 counterexample: the comma-separated environment list admits
duplicates: MYSQL_DATABASES set to a,a enumerates the database a twice,
the backup loop then dumps it twice, and the created list carries the same
artifact path twice, so the path is not unique within the run and the
database is not dumped to exactly one artifact. -/
theorem C8_counterexample :
    MySql._databases_from_env (some "a,a") none = some ["a", "a"]
    ∧ MySql.backupLoop "backups" "h" "T" (fun _ => (0, "")) ["a", "a"]
      = Except.ok ["backups/mysql_h_a_T.sql.gz", "backups/mysql_h_a_T.sql.gz"]
    ∧ ¬ (["backups/mysql_h_a_T.sql.gz", "backups/mysql_h_a_T.sql.gz"]
          : List String).Nodup
    ∧ (["backups/mysql_h_a_T.sql.gz", "backups/mysql_h_a_T.sql.gz"]
        : List String).count "backups/mysql_h_a_T.sql.gz" ≠ 1 := by
  exact ⟨by decide, by decide, by decide, by decide⟩

/-- C8 amended: provided the enumerated database list is duplicate-free, a
successful mysql backup call dumps each database to exactly one artifact,
the created paths are exactly the per-database paths in order, they are
pairwise distinct, and each database's path occurs exactly once. -/
theorem C8_amended_unique_paths (outDir host ts : String)
    (dump : String → Int × String) (dbs created : List String)
    (hnd : dbs.Nodup)
    (hok : MySql.backupLoop outDir host ts dump dbs = Except.ok created) :
    created = dbs.map (MySql.outPath outDir host ts)
    ∧ created.Nodup
    ∧ ∀ db ∈ dbs, created.count (MySql.outPath outDir host ts db) = 1 := by
  obtain ⟨hmap, _⟩ := mysqlLoop_ok_spec outDir host ts dump dbs created hok
  subst hmap
  refine ⟨rfl, hnd.map (mysql_outPath_inj outDir host ts), ?_⟩
  intro db hdb
  exact List.count_eq_one_of_mem (hnd.map (mysql_outPath_inj outDir host ts))
    (List.mem_map_of_mem _ hdb)

/-- C8 amended witness: the duplicate-free list of databases orders and
users dumps to two distinct paths, each occurring exactly once. -/
theorem C8_amended_unique_paths_witness :
    ["backups/mysql_h_orders_T.sql.gz", "backups/mysql_h_users_T.sql.gz"]
      = (["orders", "users"] : List String).map (MySql.outPath "backups" "h" "T")
    ∧ (["backups/mysql_h_orders_T.sql.gz", "backups/mysql_h_users_T.sql.gz"]
        : List String).Nodup
    ∧ ∀ db ∈ (["orders", "users"] : List String),
        (["backups/mysql_h_orders_T.sql.gz", "backups/mysql_h_users_T.sql.gz"]
          : List String).count (MySql.outPath "backups" "h" "T" db) = 1 :=
  C8_amended_unique_paths "backups" "h" "T" (fun _ => (0, "")) ["orders", "users"]
    ["backups/mysql_h_orders_T.sql.gz", "backups/mysql_h_users_T.sql.gz"]
    (by decide) (by decide)

end Infra
